import Mathlib

set_option linter.unusedVariables false

/-!
Shallow embedding of the multi-agent writing workflow orchestration core
(role analyzer, fan-out agent executor, synthesizer, error handler, sequential
orchestrator, output formatter) together with theorems settling the frozen
claims about it.

Conventions of the embedding:
* The asynchronous text-generation capability is opaque; each call site takes
  the outcome of its one generation call as an explicit `Except String _`
  parameter (`error` = the promise rejected / an exception was thrown, carrying
  the error message).
* JS objects keyed by runtime strings (`agentOutputs`, the formatter's `agents`
  record) are modelled as association lists in key-insertion order, with JS
  property-assignment semantics (`objSet`).
* JS numbers are `Int` (timestamps, priorities, lengths) or `ℚ` (confidence
  scores); JS strings are `String`.
-/

/-- Synthesis strategy enumeration from `lib/ai/langgraph/types.ts`
(a closed union of four string literals). -/
inductive SynthesisStrategy where
  | interleaving
  | layering
  | highlighting
  | blending
deriving DecidableEq, Repr

/-- The underlying string literal of a strategy value. -/
def SynthesisStrategy.value : SynthesisStrategy → String
  | .interleaving => "interleaving"
  | .layering => "layering"
  | .highlighting => "highlighting"
  | .blending => "blending"

/-- Optional per-role constraints embedded in `RoleDefinition`. -/
structure RoleConstraints where
  maxLength : Option Int := none
  tone : Option String := none
  focusAreas : Option (List String) := none
deriving DecidableEq, Repr

/-- `RoleDefinition` from `lib/ai/langgraph/types.ts`. -/
structure RoleDefinition where
  id : String
  name : String
  description : String
  promptTemplate : String
  priority : Int
  constraints : Option RoleConstraints := none
deriving DecidableEq, Repr

/-- `RoleAnalysis` from `lib/ai/langgraph/types.ts`. -/
structure RoleAnalysis where
  identifiedRoles : List RoleDefinition
  reasoning : String
  confidence : ℚ
deriving DecidableEq, Repr

/-- `AgentOutput` from `lib/ai/langgraph/types.ts`. The open-ended
`metadata : Record<string, unknown>` bag is modelled as a string association
list; no claim depends on its contents. -/
structure AgentOutput where
  roleId : String
  roleName : String
  roleDescription : String
  content : String
  reasoning : String
  confidence : ℚ
  metadata : List (String × String) := []
deriving DecidableEq, Repr

/-- `UserConstraints` from `lib/ai/langgraph/types.ts`. -/
structure UserConstraints where
  maxLength : Option Int := none
  tone : Option String := none
  targetAudience : Option String := none
  preferredRoles : Option (List String) := none
  synthesisStrategy : Option SynthesisStrategy := none
deriving DecidableEq, Repr

/-- `WritingGraphState` from `lib/ai/langgraph/types.ts`. `agentOutputs` is a
JS object keyed by role id, modelled as an association list in key-insertion
order. -/
structure WritingGraphState where
  userRequest : String
  userConstraints : Option UserConstraints := none
  roleAnalysis : Option RoleAnalysis := none
  agentOutputs : List (String × AgentOutput) := []
  synthesizedContent : Option String := none
  finalReasoning : Option String := none
  graphExecutionId : String
  startTime : Int
  currentNode : Option String := none
  errors : List String := []
deriving DecidableEq, Repr

/-- JS object property assignment `m[k] = v`: overwrites in place if the key
exists (property order is preserved), otherwise appends the new property. -/
def objSet (m : List (String × AgentOutput)) (k : String) (v : AgentOutput) :
    List (String × AgentOutput) :=
  match m with
  | [] => [(k, v)]
  | (k', v') :: rest => if k' = k then (k', v) :: rest else (k', v') :: objSet rest k v

/-- JS object property read `m[k]`. -/
def objGet (m : List (String × AgentOutput)) (k : String) : Option AgentOutput :=
  match m with
  | [] => none
  | (k', v') :: rest => if k' = k then some v' else objGet rest k

/-- `DEFAULT_MIN_ROLES` constant of `role-analyzer.ts`. -/
def DEFAULT_MIN_ROLES : Nat := 2

/-- `DEFAULT_MAX_ROLES` constant of `role-analyzer.ts`. -/
def DEFAULT_MAX_ROLES : Nat := 4

/-- The `maxRoles` computation at the top of `analyzeRoles`:
`constraints?.preferredRoles ? Math.min(constraints.preferredRoles.length, DEFAULT_MAX_ROLES) : DEFAULT_MAX_ROLES`.
JS truthiness: a present-but-empty `preferredRoles` array is truthy, so it
yields `min 0 4 = 0`. -/
def effectiveMaxRoles (constraints : Option UserConstraints) : Nat :=
  match constraints with
  | some c =>
    match c.preferredRoles with
    | some l => min l.length DEFAULT_MAX_ROLES
    | none => DEFAULT_MAX_ROLES
  | none => DEFAULT_MAX_ROLES

/-- The effective order realised by `identifiedRoles.sort((a, b) => a.priority - b.priority)`:
JS `Array.prototype.sort` is stable (guaranteed since ES2019), so sorting with
that comparator is sorting index-tagged roles by the lexicographic key
(priority, original index). -/
def roleLexLe (a b : Nat × RoleDefinition) : Prop :=
  a.2.priority < b.2.priority ∨ (a.2.priority = b.2.priority ∧ a.1 ≤ b.1)

instance : DecidableRel roleLexLe := fun a b => by
  unfold roleLexLe; infer_instance

instance : IsTotal (Nat × RoleDefinition) roleLexLe := by
  constructor
  intro a b
  unfold roleLexLe
  omega

instance : IsTrans (Nat × RoleDefinition) roleLexLe := by
  constructor
  intro a b c hab hbc
  unfold roleLexLe at *
  omega

/-- The stable ascending-priority sort used by the trimming step of
`analyzeRoles`, realised on index-tagged roles (see `roleLexLe`). -/
def sortRolesByPriority (roles : List RoleDefinition) : List RoleDefinition :=
  (roles.enum.insertionSort roleLexLe).map Prod.snd

/-- The trimming step of `analyzeRoles`:
`identifiedRoles.sort((a, b) => a.priority - b.priority).slice(0, maxRoles)`. -/
def trimRoles (roles : List RoleDefinition) (maxRoles : Nat) : List RoleDefinition :=
  (sortRolesByPriority roles).take maxRoles

/-- The fixed two-role default returned by the catch block of `analyzeRoles`. -/
def fallbackAnalysis (userRequest : String) : RoleAnalysis :=
  { identifiedRoles := [
      { id := "content_writer"
        name := "Content Writer"
        description := "Professional content writer with broad expertise"
        promptTemplate :=
          "You are a professional content writer. Create high-quality content for: " ++ userRequest
        priority := 1 },
      { id := "editor"
        name := "Editor"
        description := "Editorial expert ensuring clarity and quality"
        promptTemplate :=
          "You are an experienced editor. Review and refine content for: " ++ userRequest
        priority := 2 } ]
    reasoning := "Using fallback roles due to analysis error"
    confidence := 1/2 }

/-- `analyzeRoles` from `role-analyzer.ts`. `gen` is the outcome of the awaited
`generateObject` call (with the `!result.object` throw folded into the error
case). The `throw` raised when fewer than `DEFAULT_MIN_ROLES` roles come back
sits inside the same `try` block, so it is caught by the surrounding `catch`
and also produces the fallback analysis. -/
def analyzeRoles (gen : Except String RoleAnalysis) (userRequest : String)
    (constraints : Option UserConstraints) : RoleAnalysis :=
  let maxRoles := effectiveMaxRoles constraints
  match gen with
  | .error _ => fallbackAnalysis userRequest
  | .ok object =>
    if object.identifiedRoles.length < DEFAULT_MIN_ROLES then
      fallbackAnalysis userRequest
    else if object.identifiedRoles.length > maxRoles then
      { object with identifiedRoles := trimRoles object.identifiedRoles maxRoles }
    else object

/-- A partial state update as returned by a node
(`Partial<WritingGraphState>`): `none` means the key is absent from the
returned object. Only the six fields that any node actually writes are
listed; the remaining state fields never occur in a node's return literal. -/
structure WritingGraphStatePartial where
  roleAnalysis : Option RoleAnalysis := none
  agentOutputs : Option (List (String × AgentOutput)) := none
  synthesizedContent : Option String := none
  finalReasoning : Option String := none
  currentNode : Option String := none
  errors : Option (List String) := none
deriving DecidableEq, Repr

/-- The spread merge `{ ...currentState, ...partial }` used by the sequential
`executeWritingWorkflow`: every key present in the partial object overwrites
the corresponding field of the state wholesale. -/
def mergePartial (s : WritingGraphState) (p : WritingGraphStatePartial) :
    WritingGraphState :=
  { s with
    roleAnalysis := match p.roleAnalysis with
      | some ra => some ra
      | none => s.roleAnalysis
    agentOutputs := match p.agentOutputs with
      | some m => m
      | none => s.agentOutputs
    synthesizedContent := match p.synthesizedContent with
      | some c => some c
      | none => s.synthesizedContent
    finalReasoning := match p.finalReasoning with
      | some r => some r
      | none => s.finalReasoning
    currentNode := match p.currentNode with
      | some n => some n
      | none => s.currentNode
    errors := match p.errors with
      | some es => es
      | none => s.errors }

/-- `roleAnalyzerNode` from `lib/ai/langgraph/nodes.ts`. Its `catch` branch is
unreachable: `analyzeRoles` handles every failure internally and always
resolves (see its own catch-all fallback), so the node always returns the
analysis. -/
def roleAnalyzerNode (gen : Except String RoleAnalysis)
    (state : WritingGraphState) : WritingGraphStatePartial :=
  { roleAnalysis := some (analyzeRoles gen state.userRequest state.userConstraints)
    currentNode := some "role_analyzer" }

/-- The settling loop of `dynamicAgentExecutorNode` over the
`Promise.allSettled` results, in order: a fulfilled result stores its output
under its role id, a rejected one appends `"Agent failed: " + reason` to the
local error list. -/
def collectResults (acc : List (String × AgentOutput) × List String) :
    List (String × Except String AgentOutput) →
      List (String × AgentOutput) × List String
  | [] => acc
  | (rid, res) :: rest =>
    match res with
    | .ok out => collectResults (objSet acc.1 rid out, acc.2) rest
    | .error e => collectResults (acc.1, acc.2 ++ ["Agent failed: " ++ e]) rest

/-- `dynamicAgentExecutorNode` from `lib/ai/langgraph/nodes.ts`. `outcomes`
gives, per role, how that role's `agentFactory.createAgent(role).generate(...)`
promise settled. The node's own `catch` is unreachable in the embedding
(collection of settled results cannot throw). -/
def dynamicAgentExecutorNode (outcomes : RoleDefinition → Except String AgentOutput)
    (state : WritingGraphState) : WritingGraphStatePartial :=
  match state.roleAnalysis with
  | none =>
    { errors := some ["No role analysis found"]
      currentNode := some "dynamic_agent_executor" }
  | some ra =>
    let results := ra.identifiedRoles.map (fun role => (role.id, outcomes role))
    let collected := collectResults ([], []) results
    { agentOutputs := some collected.1
      currentNode := some "dynamic_agent_executor"
      errors := if collected.2.length > 0 then some collected.2 else none }

/-- The result of one `generateText` call: the generated text plus the
optional list of reasoning parts (`result.reasoning`, each part contributing
its `.text`). -/
structure GenTextResult where
  text : String
  reasoning : Option (List String) := none
deriving DecidableEq, Repr

/-- The reasoning-trace extraction shared by the synthesizer:
`result.reasoning && result.reasoning.length > 0 ? result.reasoning.map(r => r.text).join("\n") : ""`. -/
def reasoningTextOf (r : GenTextResult) : String :=
  match r.reasoning with
  | some parts => if parts.length > 0 then String.intercalate "\n" parts else ""
  | none => ""

/-- `synthesizeOutputs` from `synthesizer-agent.ts`. `gen` is the outcome of
the single `generateText` call (only reached with two or more outputs). The
zero-output case throws; the one-output case is a verbatim pass-through. -/
def synthesizeOutputs (gen : Except String GenTextResult)
    (agentOutputs : List AgentOutput) (userRequest : String)
    (strategy : SynthesisStrategy) : Except String (String × String) :=
  match agentOutputs with
  | [] => .error "No agent outputs to synthesize"
  | [o] => .ok (o.content, "Single agent output from " ++ o.roleName)
  | _ =>
    match gen with
    | .error e => .error e
    | .ok r =>
      let reasoningText := reasoningTextOf r
      .ok (r.text,
        if reasoningText = "" then
          "Synthesized content using " ++ strategy.value ++ " strategy"
        else reasoningText)

/-- `synthesizerNode` from `lib/ai/langgraph/nodes.ts`: guards against an
empty `agentOutputs`, resolves the strategy
(`state.userConstraints?.synthesisStrategy || BLENDING`), and converts a
`synthesizeOutputs` failure into an `errors` entry via its `catch`. -/
def synthesizerNode (gen : Except String GenTextResult)
    (state : WritingGraphState) : WritingGraphStatePartial :=
  let agentOutputsArray := state.agentOutputs.map Prod.snd
  if agentOutputsArray.length = 0 then
    { errors := some ["No agent outputs to synthesize"]
      currentNode := some "synthesizer" }
  else
    let strategy :=
      (state.userConstraints.bind (·.synthesisStrategy)).getD .blending
    match synthesizeOutputs gen agentOutputsArray state.userRequest strategy with
    | .ok (content, reasoning) =>
      { synthesizedContent := some content
        finalReasoning := some reasoning
        currentNode := some "synthesizer" }
    | .error e =>
      { errors := some [e]
        currentNode := some "synthesizer" }

/-- `errorHandlerNode` from `lib/ai/langgraph/nodes.ts`: deterministic, joins
the accumulated errors with `"; "` into the degraded content. -/
def errorHandlerNode (state : WritingGraphState) : WritingGraphStatePartial :=
  { synthesizedContent := some
      ("An error occurred during content generation: "
        ++ String.intercalate "; " state.errors)
    finalReasoning := some "Error occurred, returning error message"
    currentNode := some "error_handler" }

/-- The sequential `executeWritingWorkflow` (the simplified implementation
without LangGraph). Each stage's partial result is merged with the spread
`{ ...currentState, ...result }`. The outer `catch` is unreachable in the
embedding: every node is total here, all generation failures being routed
through the nodes' own catches. -/
def executeWritingWorkflow (genRoles : Except String RoleAnalysis)
    (outcomes : RoleDefinition → Except String AgentOutput)
    (genSynth : Except String GenTextResult)
    (state : WritingGraphState) : WritingGraphState :=
  let s1 := mergePartial state (roleAnalyzerNode genRoles state)
  if s1.errors.length > 0 then
    mergePartial s1 (errorHandlerNode s1)
  else
    let s2 := mergePartial s1 (dynamicAgentExecutorNode outcomes s1)
    if s2.agentOutputs.length = 0 then
      mergePartial s2 (errorHandlerNode s2)
    else
      mergePartial s2 (synthesizerNode genSynth s2)

/-- `shouldContinueAfterAgentExecution` from the LangGraph variant of the
workflow (`lib/ai/langgraph/workflow.ts`): routes on whether
`Object.keys(state.agentOutputs).length > 0`. -/
def shouldContinueAfterAgentExecution (state : WritingGraphState) : String :=
  if state.agentOutputs.length > 0 then "synthesizer" else "error_handler"

/-- The timeout rejection message built by
`UniversalWritingAgent.timeoutPromise` in `synthesizer-agent.ts`. -/
def timeoutMessage (roleId : String) (timeout : Int) : String :=
  "Agent " ++ roleId ++ " timed out after " ++ toString timeout ++ "ms"

/-- One agent entry of the formatted response (`multi-agent-output.ts`). -/
structure FormattedAgent where
  roleName : String
  roleDescription : String
  contribution : String
  reasoning : String
  confidence : ℚ
deriving DecidableEq, Repr

/-- One identified-role entry of the formatted response. -/
structure FormattedRole where
  id : String
  name : String
  description : String
deriving DecidableEq, Repr

/-- The `roleAnalysis` block of the formatted response. -/
structure FormattedRoleAnalysis where
  reasoning : String
  confidence : ℚ
deriving DecidableEq, Repr

/-- The `metadata` block of the formatted response. The optional `tokensUsed`
field of the schema is never set by `formatMultiAgentOutput` and is omitted. -/
structure OutputMetadata where
  duration : Int
  graphExecutionId : String
  synthesisStrategy : String
  warnings : List String
deriving DecidableEq, Repr

/-- `MultiAgentOutput`, the response shape produced by the formatter. The
`timestamp` field, `new Date().toISOString()` in the source, is represented by
the epoch-millisecond reading itself: `Date.prototype.toISOString` renders
milliseconds and is injective on them, so two readings are equal exactly when
the epoch values are. -/
structure MultiAgentOutput where
  id : String
  timestamp : Int
  request : String
  identifiedRoles : List FormattedRole
  roleAnalysis : FormattedRoleAnalysis
  agents : List (String × FormattedAgent)
  finalContent : String
  metadata : OutputMetadata
deriving DecidableEq, Repr

/-- JS `string || default`: the empty string is falsy. -/
def jsOrString (v : Option String) (d : String) : String :=
  match v with
  | some s => if s = "" then d else s
  | none => d

/-- `formatMultiAgentOutput` from `lib/ai/formatters/multi-agent-output.ts`.
`now` is the single wall-clock reading of the call (the source reads
`Date.now()` for `duration` and `new Date()` for `timestamp` back to back;
both are represented by the same reading). -/
def formatMultiAgentOutput (now : Int) (state : WritingGraphState) :
    MultiAgentOutput :=
  let duration := now - state.startTime
  let identifiedRoles :=
    match state.roleAnalysis with
    | some ra => ra.identifiedRoles.map (fun role =>
        { id := role.id, name := role.name, description := role.description
          : FormattedRole })
    | none => []
  let roleAnalysis : FormattedRoleAnalysis :=
    { reasoning := jsOrString (state.roleAnalysis.map (·.reasoning)) "No analysis available"
      confidence := (state.roleAnalysis.map (·.confidence)).getD 0 }
  let agents := state.agentOutputs.map (fun p =>
    (p.1,
      { roleName := p.2.roleName
        roleDescription := p.2.roleDescription
        contribution := p.2.content
        reasoning := p.2.reasoning
        confidence := p.2.confidence : FormattedAgent }))
  let synthesisStrategy :=
    match state.userConstraints.bind (·.synthesisStrategy) with
    | some s => s.value
    | none => "blending"
  { id := state.graphExecutionId
    timestamp := now
    request := state.userRequest
    identifiedRoles := identifiedRoles
    roleAnalysis := roleAnalysis
    agents := agents
    finalContent := (state.synthesizedContent).getD ""
    metadata :=
      { duration := duration
        graphExecutionId := state.graphExecutionId
        synthesisStrategy := synthesisStrategy
        warnings := if state.errors.length > 0 then state.errors else [] } }

/-! ### Concrete fixtures used to instantiate the claims -/

/-- A sample role with the given id and priority. -/
def sampleRole (id : String) (priority : Int) : RoleDefinition :=
  { id := id
    name := "Role " ++ id
    description := "Perspective " ++ id
    promptTemplate := "You are " ++ id
    priority := priority }

/-- A sample agent output for the given role id. -/
def sampleOutput (id : String) : AgentOutput :=
  { roleId := id
    roleName := "Role " ++ id
    roleDescription := "Perspective " ++ id
    content := "content from " ++ id
    reasoning := "reasoning of " ++ id
    confidence := 4/5 }

/-- A fresh initial state as produced by `createInitialState`. -/
def sampleState : WritingGraphState :=
  { userRequest := "Write a short guide on brewing coffee"
    graphExecutionId := "exec-1"
    startTime := 1000 }

/-- A generation outcome with exactly two identified roles. -/
def genTwoRoles : Except String RoleAnalysis :=
  .ok { identifiedRoles := [sampleRole "alpha" 1, sampleRole "beta" 2]
        reasoning := "two complementary roles"
        confidence := 9/10 }

/-- A generation outcome with three identified roles. -/
def genThreeRoles : Except String RoleAnalysis :=
  .ok { identifiedRoles := [sampleRole "alpha" 1, sampleRole "beta" 2, sampleRole "gamma" 3]
        reasoning := "three complementary roles"
        confidence := 9/10 }

/-- Constraints whose preferredRoles list has a single entry. -/
def singlePreferredConstraints : UserConstraints :=
  { preferredRoles := some ["alpha"] }

/-- Fan-out outcomes where role alpha times out and every other role
succeeds. -/
def mixedOutcomes (r : RoleDefinition) : Except String AgentOutput :=
  if r.id = "alpha" then .error (timeoutMessage "alpha" 30000)
  else .ok (sampleOutput r.id)

/-- A failing synthesizer generation call. -/
def synthFailure : Except String GenTextResult :=
  .error "Synthesis model unavailable"

/-- A succeeding synthesizer generation call. -/
def synthOk : Except String GenTextResult :=
  .ok { text := "synthesized document" }

/-- An analysis with fewer than the minimum number of roles. -/
def undersizedAnalysis : RoleAnalysis :=
  { identifiedRoles := [], reasoning := "", confidence := 0 }

/-! ### Shared helper lemmas -/

/-- A string starting with a non-empty literal is non-empty. -/
theorem append_ne_empty_left (a b : String) (h : 0 < a.length) : a ++ b ≠ "" := by
  intro hEq
  have h2 := congrArg String.length hEq
  rw [String.length_append] at h2
  have h0 : String.length "" = 0 := rfl
  rw [h0] at h2
  omega

/-- The length of the trimmed role list. -/
theorem trimRoles_length (roles : List RoleDefinition) (maxRoles : Nat) :
    (trimRoles roles maxRoles).length = min maxRoles roles.length := by
  show (((roles.enum.insertionSort roleLexLe).map Prod.snd).take maxRoles).length =
    min maxRoles roles.length
  rw [List.length_take, List.length_map, List.length_insertionSort, List.enum_length]

/-! ### Claim C5 -/

/-- C5: `analyzeRoles` never propagates an error: on a failed generation call,
and likewise when the generation returns fewer than `DEFAULT_MIN_ROLES` roles
(that throw is caught by the same catch block), it resolves with the fixed
two-role default, whose role ids are `content_writer` and `editor`, whose
confidence is exactly 0.5, and whose reasoning notes the fallback. -/
theorem analyzeRoles_soft_fallback :
    (∀ e req c, analyzeRoles (.error e) req c = fallbackAnalysis req) ∧
    (∀ ra req c, ra.identifiedRoles.length < DEFAULT_MIN_ROLES →
      analyzeRoles (.ok ra) req c = fallbackAnalysis req) ∧
    (∀ req, (fallbackAnalysis req).identifiedRoles.map RoleDefinition.id =
        ["content_writer", "editor"] ∧
      (fallbackAnalysis req).confidence = 1/2 ∧
      (fallbackAnalysis req).reasoning = "Using fallback roles due to analysis error") := by
  refine ⟨fun e req c => rfl, fun ra req c h => ?_, fun req => ⟨rfl, rfl, rfl⟩⟩
  show (if ra.identifiedRoles.length < DEFAULT_MIN_ROLES then fallbackAnalysis req
      else if ra.identifiedRoles.length > effectiveMaxRoles c then
        { ra with identifiedRoles := trimRoles ra.identifiedRoles (effectiveMaxRoles c) }
      else ra) = fallbackAnalysis req
  rw [if_pos h]

/-- Witness for C5 at a concrete undersized analysis. -/
theorem analyzeRoles_soft_fallback_witness :
    analyzeRoles (.ok undersizedAnalysis) "req" none = fallbackAnalysis "req" :=
  analyzeRoles_soft_fallback.2.1 undersizedAnalysis "req" none (by decide)

/-! ### Claim C1 -/

/-- C1 fails as stated: with a `preferredRoles` list of length 1 the effective
maximum is 1, and a successful analysis with two roles is trimmed down to a
single role, leaving `identifiedRoles.length` outside [2,4]. -/
theorem analyzeRoles_bounds_counterexample :
    ¬(2 ≤ (analyzeRoles genTwoRoles "req" (some singlePreferredConstraints)).identifiedRoles.length ∧
      (analyzeRoles genTwoRoles "req" (some singlePreferredConstraints)).identifiedRoles.length ≤ 4) := by
  decide

/-- C1 (amended): whenever the effective maximum
(`min preferredRoles.length 4` when a preferredRoles list is given, else 4) is
at least 2, the analysis returned by `analyzeRoles` after its trimming step has
between 2 and 4 identified roles. -/
theorem analyzeRoles_role_count_in_bounds (gen : Except String RoleAnalysis)
    (req : String) (c : Option UserConstraints)
    (h : DEFAULT_MIN_ROLES ≤ effectiveMaxRoles c) :
    DEFAULT_MIN_ROLES ≤ (analyzeRoles gen req c).identifiedRoles.length ∧
    (analyzeRoles gen req c).identifiedRoles.length ≤ DEFAULT_MAX_ROLES := by
  have hmin : 2 ≤ effectiveMaxRoles c := h
  have hmax4 : effectiveMaxRoles c ≤ 4 := by
    unfold effectiveMaxRoles
    cases c with
    | none => simp [DEFAULT_MAX_ROLES]
    | some uc =>
      cases huc : uc.preferredRoles with
      | none => simp [huc, DEFAULT_MAX_ROLES]
      | some l => simp [huc, DEFAULT_MAX_ROLES]
  show 2 ≤ (analyzeRoles gen req c).identifiedRoles.length ∧
    (analyzeRoles gen req c).identifiedRoles.length ≤ 4
  cases gen with
  | error e =>
    show 2 ≤ (fallbackAnalysis req).identifiedRoles.length ∧
      (fallbackAnalysis req).identifiedRoles.length ≤ 4
    simp [fallbackAnalysis]
  | ok obj =>
    show 2 ≤ (if obj.identifiedRoles.length < DEFAULT_MIN_ROLES then fallbackAnalysis req
        else if obj.identifiedRoles.length > effectiveMaxRoles c then
          { obj with identifiedRoles := trimRoles obj.identifiedRoles (effectiveMaxRoles c) }
        else obj).identifiedRoles.length ∧
      (if obj.identifiedRoles.length < DEFAULT_MIN_ROLES then fallbackAnalysis req
        else if obj.identifiedRoles.length > effectiveMaxRoles c then
          { obj with identifiedRoles := trimRoles obj.identifiedRoles (effectiveMaxRoles c) }
        else obj).identifiedRoles.length ≤ 4
    split_ifs with hlt hgt
    · simp [fallbackAnalysis]
    · show 2 ≤ (trimRoles obj.identifiedRoles (effectiveMaxRoles c)).length ∧
        (trimRoles obj.identifiedRoles (effectiveMaxRoles c)).length ≤ 4
      rw [trimRoles_length]
      have hlt2 : ¬(obj.identifiedRoles.length < 2) := hlt
      omega
    · show 2 ≤ obj.identifiedRoles.length ∧ obj.identifiedRoles.length ≤ 4
      have hlt2 : ¬(obj.identifiedRoles.length < 2) := hlt
      omega

/-- Witness for the amended C1 at a concrete input. -/
theorem analyzeRoles_role_count_in_bounds_witness :
    DEFAULT_MIN_ROLES ≤ (analyzeRoles genTwoRoles "req" none).identifiedRoles.length ∧
    (analyzeRoles genTwoRoles "req" none).identifiedRoles.length ≤ DEFAULT_MAX_ROLES :=
  analyzeRoles_role_count_in_bounds genTwoRoles "req" none (by decide)

/-! ### Claim C9 -/

/-- A state with every optional field missing, as produced at request entry. -/
def bareState : WritingGraphState :=
  { userRequest := "req", graphExecutionId := "exec-9", startTime := 0 }

/-- C9 fails as stated: for a state with no role analysis the formatter does
not substitute the empty string for the reasoning — it substitutes the literal
"No analysis available". -/
theorem formatter_reasoning_default_counterexample :
    (formatMultiAgentOutput 0 bareState).roleAnalysis.reasoning = "No analysis available" ∧
    (formatMultiAgentOutput 0 bareState).roleAnalysis.reasoning ≠ "" := by
  exact ⟨rfl, by decide⟩

/-- C9 (amended): the formatter is total and, on a state with missing optional
fields, substitutes the defaults: "No analysis available" as the reasoning
(not the empty string), confidence 0, the empty content string, the empty
identified-role list and the empty warnings list. -/
theorem formatter_defaults (state : WritingGraphState) (t : Int)
    (hra : state.roleAnalysis = none) (hsc : state.synthesizedContent = none)
    (herr : state.errors = []) :
    (formatMultiAgentOutput t state).roleAnalysis.reasoning = "No analysis available" ∧
    (formatMultiAgentOutput t state).roleAnalysis.confidence = 0 ∧
    (formatMultiAgentOutput t state).finalContent = "" ∧
    (formatMultiAgentOutput t state).identifiedRoles = [] ∧
    (formatMultiAgentOutput t state).metadata.warnings = [] := by
  simp [formatMultiAgentOutput, hra, hsc, herr, jsOrString]

/-- Witness for the amended C9 at a concrete bare state. -/
theorem formatter_defaults_witness :
    (formatMultiAgentOutput 0 bareState).roleAnalysis.reasoning = "No analysis available" ∧
    (formatMultiAgentOutput 0 bareState).roleAnalysis.confidence = 0 ∧
    (formatMultiAgentOutput 0 bareState).finalContent = "" ∧
    (formatMultiAgentOutput 0 bareState).identifiedRoles = [] ∧
    (formatMultiAgentOutput 0 bareState).metadata.warnings = [] :=
  formatter_defaults bareState 0 rfl rfl rfl

/-! ### Claim C8 -/

/-- Replace the duration of a formatted output (to compare outputs up to
duration). -/
def withDuration (o : MultiAgentOutput) (d : Int) : MultiAgentOutput :=
  { o with metadata := { o.metadata with duration := d } }

/-- Replace the duration and the call-time timestamp of a formatted output. -/
def withDurationTimestamp (o : MultiAgentOutput) (d ts : Int) : MultiAgentOutput :=
  { o with timestamp := ts, metadata := { o.metadata with duration := d } }

/-- A terminal state (synthesized content present). -/
def terminalState : WritingGraphState :=
  { sampleState with
    agentOutputs := [("alpha", sampleOutput "alpha")]
    synthesizedContent := some "final text"
    finalReasoning := some "done"
    currentNode := some "synthesizer" }

/-- C8 fails as stated: formatting the same terminal state at two wall-clock
instants differs not only in `metadata.duration` but also in the top-level
`timestamp` field, so the outputs are not identical once duration is
disregarded. -/
theorem format_idempotence_counterexample :
    1005 < 1010 ∧
    withDuration (formatMultiAgentOutput 1005 terminalState) 0 ≠
      withDuration (formatMultiAgentOutput 1010 terminalState) 0 := by
  exact ⟨by decide, by decide⟩

/-- C8 (amended): formatting the same state twice yields identical outputs
except for `metadata.duration` and the `timestamp` field, and the duration is
monotonically non-decreasing with wall-clock time. -/
theorem format_idempotent_up_to_duration_and_timestamp
    (state : WritingGraphState) (t1 t2 : Int) (h : t1 ≤ t2) :
    withDurationTimestamp (formatMultiAgentOutput t1 state) 0 0 =
      withDurationTimestamp (formatMultiAgentOutput t2 state) 0 0 ∧
    (formatMultiAgentOutput t1 state).metadata.duration ≤
      (formatMultiAgentOutput t2 state).metadata.duration := by
  constructor
  · rfl
  · show t1 - state.startTime ≤ t2 - state.startTime
    omega

/-- Witness for the amended C8 at concrete instants. -/
theorem format_idempotent_up_to_duration_and_timestamp_witness :
    withDurationTimestamp (formatMultiAgentOutput 1005 terminalState) 0 0 =
      withDurationTimestamp (formatMultiAgentOutput 1010 terminalState) 0 0 ∧
    (formatMultiAgentOutput 1005 terminalState).metadata.duration ≤
      (formatMultiAgentOutput 1010 terminalState).metadata.duration :=
  format_idempotent_up_to_duration_and_timestamp terminalState 1005 1010 (by decide)

/-! ### Claim C10 -/

/-- C10: the error-handling stage writes only `synthesizedContent`,
`finalReasoning` and `currentNode`; merging its partial update leaves
`agentOutputs`, `roleAnalysis`, `errors`, `userRequest`, `userConstraints`,
`graphExecutionId` and `startTime` unchanged, so agent outputs collected
before the failure still appear in the formatted response on the error
path. -/
theorem errorHandler_frame (state : WritingGraphState) :
    (mergePartial state (errorHandlerNode state)).agentOutputs = state.agentOutputs ∧
    (mergePartial state (errorHandlerNode state)).roleAnalysis = state.roleAnalysis ∧
    (mergePartial state (errorHandlerNode state)).errors = state.errors ∧
    (mergePartial state (errorHandlerNode state)).userRequest = state.userRequest ∧
    (mergePartial state (errorHandlerNode state)).userConstraints = state.userConstraints ∧
    (mergePartial state (errorHandlerNode state)).graphExecutionId = state.graphExecutionId ∧
    (mergePartial state (errorHandlerNode state)).startTime = state.startTime ∧
    ∀ t : Int,
      (formatMultiAgentOutput t (mergePartial state (errorHandlerNode state))).agents =
        (formatMultiAgentOutput t state).agents :=
  ⟨rfl, rfl, rfl, rfl, rfl, rfl, rfl, fun t => rfl⟩

/-! ### Claim C3 -/

/-- The running state after the role-analysis merge of a run in which role
alpha times out, roles beta and gamma succeed and the synthesis call fails. -/
def c3s1 : WritingGraphState :=
  mergePartial sampleState (roleAnalyzerNode genThreeRoles sampleState)

/-- The running state of the same run after the agent-execution merge. -/
def c3s2 : WritingGraphState :=
  mergePartial c3s1 (dynamicAgentExecutorNode mixedOutcomes c3s1)

/-- C3 fails as stated: in the run above, the agent-execution merge leaves one
recorded error, but merging the failed synthesis stage's partial update
replaces the errors array outright — the previous errors sequence is not a
prefix of the merged one, and the per-role failure entry is absent from the
final state of the whole workflow. -/
theorem errors_merge_overwrites_counterexample :
    c3s2.errors = ["Agent failed: " ++ timeoutMessage "alpha" 30000] ∧
    ¬(c3s2.errors <+: (mergePartial c3s2 (synthesizerNode synthFailure c3s2)).errors) ∧
    (executeWritingWorkflow genThreeRoles mixedOutcomes synthFailure sampleState).errors =
      ["Synthesis model unavailable"] := by
  refine ⟨by decide, by decide, by decide⟩

/-- C3 (amended): the spread merge overwrites the `errors` field with the
stage's own errors array whenever the partial update carries one, rather than
concatenating; the previous errors sequence is guaranteed to be a prefix of
the merged one exactly in the remaining cases — when the stage reports no
errors, or when the running state's errors list is still empty. -/
theorem mergePartial_errors_preserved (s : WritingGraphState)
    (p : WritingGraphStatePartial)
    (h : p.errors = none ∨ s.errors = []) :
    s.errors <+: (mergePartial s p).errors := by
  rcases h with h | h
  · show s.errors <+: (match p.errors with
      | some es => es
      | none => s.errors)
    rw [h]
  · rw [h]
    exact List.nil_prefix

/-- Witness for the amended C3: the error-handler stage carries no errors
field, so its merge preserves the errors sequence. -/
theorem mergePartial_errors_preserved_witness :
    c3s2.errors <+: (mergePartial c3s2 (errorHandlerNode c3s2)).errors :=
  mergePartial_errors_preserved c3s2 (errorHandlerNode c3s2) (Or.inl rfl)

/-! ### Shared lemmas about the fan-out collection loop -/

/-- If every settled result failed, collection leaves the outputs object
unchanged. -/
theorem collectResults_fst_of_all_errors :
    ∀ (rs : List (String × Except String AgentOutput))
      (acc : List (String × AgentOutput) × List String),
      (∀ p ∈ rs, ∃ e, p.2 = Except.error e) →
      (collectResults acc rs).1 = acc.1
  | [], acc, h => rfl
  | (rid, res) :: tl, acc, h => by
    obtain ⟨e, he⟩ := h (rid, res) (List.mem_cons_self _ _)
    have he2 : res = Except.error e := he
    subst he2
    show (collectResults (acc.1, acc.2 ++ ["Agent failed: " ++ e]) tl).1 = acc.1
    exact collectResults_fst_of_all_errors tl _ (fun p hp => h p (List.mem_cons_of_mem _ hp))

/-- A property assignment never empties a JS object. -/
theorem objSet_ne_nil (m : List (String × AgentOutput)) (k : String) (v : AgentOutput) :
    objSet m k v ≠ [] := by
  cases m with
  | nil => simp [objSet]
  | cons hd tl =>
    obtain ⟨k', v'⟩ := hd
    show (if k' = k then (k', v) :: tl else (k', v') :: objSet tl k v) ≠ []
    split <;> simp

/-- Collection preserves non-emptiness of the outputs object. -/
theorem collectResults_fst_ne_nil :
    ∀ (rs : List (String × Except String AgentOutput))
      (acc : List (String × AgentOutput) × List String),
      acc.1 ≠ [] → (collectResults acc rs).1 ≠ []
  | [], acc, h => h
  | (rid, res) :: tl, acc, h => by
    cases res with
    | ok out =>
      show (collectResults (objSet acc.1 rid out, acc.2) tl).1 ≠ []
      exact collectResults_fst_ne_nil tl _ (objSet_ne_nil _ _ _)
    | error e =>
      show (collectResults (acc.1, acc.2 ++ ["Agent failed: " ++ e]) tl).1 ≠ []
      exact collectResults_fst_ne_nil tl _ h

/-- A single fulfilled result makes the collected outputs non-empty. -/
theorem collectResults_fst_ne_nil_of_ok :
    ∀ (rs : List (String × Except String AgentOutput))
      (acc : List (String × AgentOutput) × List String),
      (∃ p ∈ rs, ∃ o, p.2 = Except.ok o) → (collectResults acc rs).1 ≠ []
  | [], acc, h => absurd h (by simp)
  | (rid, res) :: tl, acc, h => by
    cases res with
    | ok out =>
      show (collectResults (objSet acc.1 rid out, acc.2) tl).1 ≠ []
      exact collectResults_fst_ne_nil tl _ (objSet_ne_nil _ _ _)
    | error e =>
      show (collectResults (acc.1, acc.2 ++ ["Agent failed: " ++ e]) tl).1 ≠ []
      obtain ⟨p, hp, o, hpo⟩ := h
      rcases List.mem_cons.mp hp with hEq | hMem
      · subst hEq
        simp at hpo
      · exact collectResults_fst_ne_nil_of_ok tl _ ⟨p, hMem, o, hpo⟩

/-- The collected outputs of a fan-out over `roles` are empty exactly when
every role's execution failed. -/
theorem collect_empty_iff (outcomes : RoleDefinition → Except String AgentOutput)
    (roles : List RoleDefinition) :
    (collectResults ([], []) (roles.map (fun role => (role.id, outcomes role)))).1 = [] ↔
      ∀ r ∈ roles, ∃ e, outcomes r = Except.error e := by
  constructor
  · intro hc r hr
    cases ho : outcomes r with
    | ok o =>
      exact absurd hc
        (collectResults_fst_ne_nil_of_ok _ _
          ⟨(r.id, outcomes r), List.mem_map_of_mem _ hr, o, by rw [ho]⟩)
    | error e => exact ⟨e, rfl⟩
  · intro hall
    apply collectResults_fst_of_all_errors
    intro p hp
    obtain ⟨role, hrole, rfl⟩ := List.mem_map.mp hp
    exact hall role hrole

/-- The partial update of the executor node on a state whose role analysis is
present. -/
theorem dynamicAgentExecutorNode_of_some
    (outcomes : RoleDefinition → Except String AgentOutput)
    (s : WritingGraphState) (ra : RoleAnalysis) (h : s.roleAnalysis = some ra) :
    dynamicAgentExecutorNode outcomes s =
      (let results := ra.identifiedRoles.map (fun role => (role.id, outcomes role))
       let collected := collectResults ([], []) results
       { agentOutputs := some collected.1
         currentNode := some "dynamic_agent_executor"
         errors := if collected.2.length > 0 then some collected.2 else none }) := by
  unfold dynamicAgentExecutorNode
  rw [h]

/-- The merged agent outputs after the executor stage. -/
theorem executorMerge_agentOutputs
    (outcomes : RoleDefinition → Except String AgentOutput)
    (s : WritingGraphState) (ra : RoleAnalysis) (h : s.roleAnalysis = some ra) :
    (mergePartial s (dynamicAgentExecutorNode outcomes s)).agentOutputs =
      (collectResults ([], [])
        (ra.identifiedRoles.map (fun role => (role.id, outcomes role)))).1 := by
  rw [dynamicAgentExecutorNode_of_some outcomes s ra h]
  rfl

/-- The synthesizer node labels the state with its own node name in every
branch. -/
theorem synthesizerNode_currentNode (gen : Except String GenTextResult)
    (s : WritingGraphState) :
    (synthesizerNode gen s).currentNode = some "synthesizer" := by
  simp only [synthesizerNode]
  split
  · rfl
  · split <;> rfl

/-- The error-handler content after the merge, spelt out. -/
theorem errorHandlerMerge_synthesizedContent (s : WritingGraphState) :
    (mergePartial s (errorHandlerNode s)).synthesizedContent =
      some ("An error occurred during content generation: "
        ++ String.intercalate "; " s.errors) := rfl

/-- When a node's partial update carries a node label, the merge adopts it. -/
theorem mergePartial_currentNode_of_some (s : WritingGraphState)
    (p : WritingGraphStatePartial) (n : String) (h : p.currentNode = some n) :
    (mergePartial s p).currentNode = some n := by
  show (match p.currentNode with
    | some n => some n
    | none => s.currentNode) = some n
  rw [h]

/-- With a clean incoming error list, the workflow terminates in the
synthesizer stage when the fan-out collected at least one output and in the
error handler otherwise. -/
theorem workflow_currentNode_characterization
    (genRoles : Except String RoleAnalysis)
    (outcomes : RoleDefinition → Except String AgentOutput)
    (genSynth : Except String GenTextResult)
    (state : WritingGraphState) (h : state.errors = []) :
    (executeWritingWorkflow genRoles outcomes genSynth state).currentNode =
      (if (collectResults ([], [])
            ((analyzeRoles genRoles state.userRequest state.userConstraints).identifiedRoles.map
              (fun role => (role.id, outcomes role)))).1.length = 0
       then some "error_handler" else some "synthesizer") := by
  have hs1err : (mergePartial state (roleAnalyzerNode genRoles state)).errors = [] := h
  have hcond : ¬((mergePartial state (roleAnalyzerNode genRoles state)).errors.length > 0) := by
    rw [hs1err]
    simp
  simp only [executeWritingWorkflow]
  rw [if_neg hcond]
  have hout := executorMerge_agentOutputs outcomes
    (mergePartial state (roleAnalyzerNode genRoles state))
    (analyzeRoles genRoles state.userRequest state.userConstraints) rfl
  rw [hout]
  by_cases hc : (collectResults ([], [])
      ((analyzeRoles genRoles state.userRequest state.userConstraints).identifiedRoles.map
        (fun role => (role.id, outcomes role)))).1.length = 0
  · simp only [if_pos hc]
    rfl
  · simp only [if_neg hc]
    exact mergePartial_currentNode_of_some _ _ _ (synthesizerNode_currentNode genSynth _)

/-! ### Claim C2 -/

/-- C2: `executeWritingWorkflow` is a total function of the state and the
generation outcomes (the embedding's rendering of "never throws"), and
whenever every identified role's execution fails, the returned state has
`synthesizedContent` set to a non-empty error summary. -/
theorem workflow_all_roles_fail_error_summary
    (genRoles : Except String RoleAnalysis)
    (outcomes : RoleDefinition → Except String AgentOutput)
    (genSynth : Except String GenTextResult)
    (state : WritingGraphState)
    (h : ∀ r ∈ (analyzeRoles genRoles state.userRequest state.userConstraints).identifiedRoles,
        ∃ e, outcomes r = Except.error e) :
    ((executeWritingWorkflow genRoles outcomes genSynth state).synthesizedContent.getD "") ≠ "" := by
  have hkey : ∀ s : WritingGraphState,
      ((mergePartial s (errorHandlerNode s)).synthesizedContent.getD "") ≠ "" := by
    intro s
    rw [errorHandlerMerge_synthesizedContent]
    show ("An error occurred during content generation: "
      ++ String.intercalate "; " s.errors) ≠ ""
    exact append_ne_empty_left _ _ (by decide)
  simp only [executeWritingWorkflow]
  split
  · exact hkey _
  · have hout := executorMerge_agentOutputs outcomes
      (mergePartial state (roleAnalyzerNode genRoles state))
      (analyzeRoles genRoles state.userRequest state.userConstraints) rfl
    rw [hout]
    have hc : (collectResults ([], [])
        ((analyzeRoles genRoles state.userRequest state.userConstraints).identifiedRoles.map
          (fun role => (role.id, outcomes role)))).1.length = 0 := by
      rw [(collect_empty_iff outcomes _).mpr h]
      rfl
    rw [if_pos hc]
    exact hkey _

/-- Fan-out outcomes where every role times out. -/
def allFailOutcomes (r : RoleDefinition) : Except String AgentOutput :=
  .error (timeoutMessage r.id 30000)

/-- Witness for C2 at a concrete all-roles-fail run. -/
theorem workflow_all_roles_fail_error_summary_witness :
    ((executeWritingWorkflow genThreeRoles allFailOutcomes synthOk sampleState).synthesizedContent.getD "") ≠ "" :=
  workflow_all_roles_fail_error_summary genThreeRoles allFailOutcomes synthOk sampleState
    (fun r hr => ⟨timeoutMessage r.id 30000, rfl⟩)

/-! ### Claim C4 -/

/-- C4: after the agent-execution stage (reached with a clean incoming error
list), the workflow proceeds to the synthesis stage exactly when at least one
role's execution succeeded, and takes the error-handling stage exactly when
every role failed; `shouldContinueAfterAgentExecution` (the LangGraph edge
function) routes on exactly the same non-emptiness condition. -/
theorem workflow_synthesis_iff_any_success
    (genRoles : Except String RoleAnalysis)
    (outcomes : RoleDefinition → Except String AgentOutput)
    (genSynth : Except String GenTextResult)
    (state : WritingGraphState) (h : state.errors = []) :
    ((executeWritingWorkflow genRoles outcomes genSynth state).currentNode = some "synthesizer" ↔
      ∃ r ∈ (analyzeRoles genRoles state.userRequest state.userConstraints).identifiedRoles,
        ∃ o, outcomes r = Except.ok o) ∧
    ((executeWritingWorkflow genRoles outcomes genSynth state).currentNode = some "error_handler" ↔
      ∀ r ∈ (analyzeRoles genRoles state.userRequest state.userConstraints).identifiedRoles,
        ∃ e, outcomes r = Except.error e) ∧
    (∀ s : WritingGraphState,
      shouldContinueAfterAgentExecution s = "synthesizer" ↔ s.agentOutputs.length > 0) := by
  have hchar := workflow_currentNode_characterization genRoles outcomes genSynth state h
  have hiff := collect_empty_iff outcomes
    (analyzeRoles genRoles state.userRequest state.userConstraints).identifiedRoles
  refine ⟨?_, ?_, ?_⟩
  · by_cases hc : (collectResults ([], [])
        ((analyzeRoles genRoles state.userRequest state.userConstraints).identifiedRoles.map
          (fun role => (role.id, outcomes role)))).1.length = 0
    · rw [hchar, if_pos hc]
      constructor
      · intro hx
        exact absurd hx (by decide)
      · rintro ⟨r, hr, o, ho⟩
        obtain ⟨e, he⟩ := hiff.mp (List.length_eq_zero.mp hc) r hr
        rw [ho] at he
        simp at he
    · rw [hchar, if_neg hc]
      constructor
      · intro _
        by_contra hnone
        apply hc
        rw [hiff.mpr ?_]
        · rfl
        · intro r hr
          cases ho : outcomes r with
          | ok o => exact absurd ⟨r, hr, o, ho⟩ hnone
          | error e => exact ⟨e, rfl⟩
      · intro _
        rfl
  · by_cases hc : (collectResults ([], [])
        ((analyzeRoles genRoles state.userRequest state.userConstraints).identifiedRoles.map
          (fun role => (role.id, outcomes role)))).1.length = 0
    · rw [hchar, if_pos hc]
      constructor
      · intro _
        exact hiff.mp (List.length_eq_zero.mp hc)
      · intro _
        rfl
    · rw [hchar, if_neg hc]
      constructor
      · intro hx
        exact absurd hx (by decide)
      · intro hall
        exact absurd (by rw [hiff.mpr hall]; rfl) hc
  · intro s
    unfold shouldContinueAfterAgentExecution
    by_cases hgt : s.agentOutputs.length > 0
    · rw [if_pos hgt]
      simp [hgt]
    · rw [if_neg hgt]
      constructor
      · intro hx
        exact absurd hx (by decide)
      · intro hx
        exact absurd hx hgt

/-- Witness for C4 at a concrete mixed-outcome run. -/
theorem workflow_synthesis_iff_any_success_witness :
    (executeWritingWorkflow genThreeRoles mixedOutcomes synthOk sampleState).currentNode =
      some "synthesizer" :=
  (workflow_synthesis_iff_any_success genThreeRoles mixedOutcomes synthOk sampleState rfl).1.mpr
    ⟨sampleRole "beta" 2, by decide, sampleOutput "beta", rfl⟩

/-! ### Claim C6 -/

/-- The success entries a fan-out over `roles` stores in the outputs object,
keyed by role id, in role order. -/
def fanOutSuccessEntries (outcomes : RoleDefinition → Except String AgentOutput)
    (roles : List RoleDefinition) : List (String × AgentOutput) :=
  roles.filterMap (fun role =>
    match outcomes role with
    | .ok out => some (role.id, out)
    | .error _ => none)

/-- The failure entries a fan-out over `roles` pushes onto the local error
list, in role order. -/
def fanOutFailureEntries (outcomes : RoleDefinition → Except String AgentOutput)
    (roles : List RoleDefinition) : List String :=
  roles.filterMap (fun role =>
    match outcomes role with
    | .ok _ => none
    | .error e => some ("Agent failed: " ++ e))

/-- Reading an absent key of a JS object yields nothing. -/
theorem objGet_eq_none_of_not_mem_keys :
    ∀ (m : List (String × AgentOutput)) (k : String),
      k ∉ m.map Prod.fst → objGet m k = none
  | [], k, h => rfl
  | (k', v') :: tl, k, h => by
    have hk : k' ≠ k := by
      intro hEq
      exact h (by simp [hEq])
    show (if k' = k then some v' else objGet tl k) = none
    rw [if_neg hk]
    exact objGet_eq_none_of_not_mem_keys tl k (fun hm => h (by simp [hm]))

/-- Assigning a fresh key appends the property at the end of the object. -/
theorem objSet_of_fresh :
    ∀ (m : List (String × AgentOutput)) (k : String) (v : AgentOutput),
      objGet m k = none → objSet m k v = m ++ [(k, v)]
  | [], k, v, h => rfl
  | (k', v') :: tl, k, v, h => by
    have hh : (if k' = k then some v' else objGet tl k) = none := h
    have hk : ¬(k' = k) := by
      intro hEq
      rw [if_pos hEq] at hh
      exact Option.noConfusion hh
    rw [if_neg hk] at hh
    show (if k' = k then (k', v) :: tl else (k', v') :: objSet tl k v) =
      (k', v') :: (tl ++ [(k, v)])
    rw [if_neg hk, objSet_of_fresh tl k v hh]

/-- Reading through an appended object checks the front object first. -/
theorem objGet_append :
    ∀ (m1 m2 : List (String × AgentOutput)) (k : String),
      objGet (m1 ++ m2) k =
        match objGet m1 k with
        | some v => some v
        | none => objGet m2 k
  | [], m2, k => rfl
  | (k', v') :: tl, m2, k => by
    show (if k' = k then some v' else objGet (tl ++ m2) k) =
      match (if k' = k then some v' else objGet tl k) with
      | some v => some v
      | none => objGet m2 k
    by_cases hk : k' = k
    · rw [if_pos hk, if_pos hk]
    · rw [if_neg hk, if_neg hk, objGet_append tl m2 k]

/-- The collection loop, over settled results with pairwise-distinct fresh
keys, appends exactly one output entry per success and one error entry per
failure, in order. -/
theorem collectResults_eq :
    ∀ (rs : List (String × Except String AgentOutput))
      (acc : List (String × AgentOutput) × List String),
      (rs.map Prod.fst).Nodup →
      (∀ p ∈ rs, objGet acc.1 p.1 = none) →
      collectResults acc rs =
        (acc.1 ++ rs.filterMap (fun p =>
            match p.2 with
            | .ok o => some (p.1, o)
            | .error _ => none),
         acc.2 ++ rs.filterMap (fun p =>
            match p.2 with
            | .ok _ => none
            | .error e => some ("Agent failed: " ++ e)))
  | [], acc, _, _ => by simp [collectResults]
  | (rid, res) :: tl, acc, hnodup, hfresh => by
    have hnodup2 : (rid :: tl.map Prod.fst).Nodup := by simpa using hnodup
    have hrid : rid ∉ tl.map Prod.fst := (List.nodup_cons.mp hnodup2).1
    have htlnodup : (tl.map Prod.fst).Nodup := (List.nodup_cons.mp hnodup2).2
    cases res with
    | ok out =>
      have hfresh2 : ∀ p ∈ tl, objGet (acc.1 ++ [(rid, out)]) p.1 = none := by
        intro p hp
        rw [objGet_append]
        rw [hfresh p (List.mem_cons_of_mem _ hp)]
        have hne : rid ≠ p.1 := by
          intro hEq
          exact hrid (hEq ▸ List.mem_map_of_mem Prod.fst hp)
        show (if rid = p.1 then some out else objGet [] p.1) = none
        rw [if_neg hne]
        rfl
      show collectResults (objSet acc.1 rid out, acc.2) tl = _
      rw [objSet_of_fresh acc.1 rid out (hfresh (rid, .ok out) (List.mem_cons_self _ _))]
      rw [collectResults_eq tl (acc.1 ++ [(rid, out)], acc.2) htlnodup hfresh2]
      simp [List.append_assoc]
    | error e =>
      show collectResults (acc.1, acc.2 ++ ["Agent failed: " ++ e]) tl = _
      rw [collectResults_eq tl (acc.1, acc.2 ++ ["Agent failed: " ++ e]) htlnodup
        (fun p hp => hfresh p (List.mem_cons_of_mem _ hp))]
      simp [List.append_assoc]

/-- The fan-out collection over a role list with distinct ids, expressed
through the per-role success and failure entries. -/
theorem collect_over_roles (outcomes : RoleDefinition → Except String AgentOutput)
    (roles : List RoleDefinition)
    (hnodup : (roles.map RoleDefinition.id).Nodup) :
    collectResults ([], []) (roles.map (fun role => (role.id, outcomes role))) =
      (fanOutSuccessEntries outcomes roles, fanOutFailureEntries outcomes roles) := by
  rw [collectResults_eq]
  · simp only [List.nil_append, List.filterMap_map]
    rfl
  · simpa [List.map_map, Function.comp] using hnodup
  · intro p hp
    rfl

/-- Unfolding of the fan-out success entries over the head role. -/
theorem fanOutSuccessEntries_cons
    (outcomes : RoleDefinition → Except String AgentOutput)
    (hd : RoleDefinition) (tl : List RoleDefinition) :
    fanOutSuccessEntries outcomes (hd :: tl) =
      match outcomes hd with
      | .ok out => (hd.id, out) :: fanOutSuccessEntries outcomes tl
      | .error _ => fanOutSuccessEntries outcomes tl := by
  cases ho : outcomes hd <;> simp [fanOutSuccessEntries, ho]

/-- Every key of the fan-out success entries is the id of one of the roles. -/
theorem fanOutSuccessEntries_keys_sub
    (outcomes : RoleDefinition → Except String AgentOutput)
    (roles : List RoleDefinition) :
    ∀ k ∈ (fanOutSuccessEntries outcomes roles).map Prod.fst,
      k ∈ roles.map RoleDefinition.id := by
  intro k hk
  obtain ⟨p, hp, rfl⟩ := List.mem_map.mp hk
  obtain ⟨role, hrole, hf⟩ := List.mem_filterMap.mp hp
  cases ho : outcomes role with
  | ok o =>
    rw [ho] at hf
    have : (role.id, o) = p := by simpa using hf
    rw [← this]
    exact List.mem_map_of_mem _ hrole
  | error e =>
    rw [ho] at hf
    exact absurd hf (by simp)

/-- Per-role lookup in the fan-out success entries: a successful role is
present under its id with its own output, a failed role is absent. -/
theorem fanOutSuccessEntries_get :
    ∀ (roles : List RoleDefinition) (outcomes : RoleDefinition → Except String AgentOutput),
      (roles.map RoleDefinition.id).Nodup →
      ∀ role ∈ roles,
        (∀ out, outcomes role = Except.ok out →
          objGet (fanOutSuccessEntries outcomes roles) role.id = some out) ∧
        (∀ e, outcomes role = Except.error e →
          objGet (fanOutSuccessEntries outcomes roles) role.id = none)
  | [], outcomes, _, role, hrole => absurd hrole (by simp)
  | hd :: tl, outcomes, hnodup, role, hrole => by
    have hnodup2 : (hd.id :: tl.map RoleDefinition.id).Nodup := by simpa using hnodup
    have hhd : hd.id ∉ tl.map RoleDefinition.id := (List.nodup_cons.mp hnodup2).1
    have htlnodup : (tl.map RoleDefinition.id).Nodup := (List.nodup_cons.mp hnodup2).2
    rcases List.mem_cons.mp hrole with hEq | hMem
    · subst hEq
      constructor
      · intro out hok
        rw [fanOutSuccessEntries_cons, hok]
        show (if role.id = role.id then some out
          else objGet (fanOutSuccessEntries outcomes tl) role.id) = some out
        rw [if_pos rfl]
      · intro e herr
        rw [fanOutSuccessEntries_cons, herr]
        exact objGet_eq_none_of_not_mem_keys _ _
          (fun hm => hhd (fanOutSuccessEntries_keys_sub outcomes tl role.id hm))
    · have hne : hd.id ≠ role.id := by
        intro hEq
        exact hhd (hEq ▸ List.mem_map_of_mem RoleDefinition.id hMem)
      have ih := fanOutSuccessEntries_get tl outcomes htlnodup role hMem
      have hstep : objGet (fanOutSuccessEntries outcomes (hd :: tl)) role.id =
          objGet (fanOutSuccessEntries outcomes tl) role.id := by
        rw [fanOutSuccessEntries_cons]
        cases ho : outcomes hd with
        | ok o =>
          show (if hd.id = role.id then some o
            else objGet (fanOutSuccessEntries outcomes tl) role.id) = _
          rw [if_neg hne]
        | error e => rfl
      exact ⟨fun out hok => by rw [hstep]; exact ih.1 out hok,
             fun e herr => by rw [hstep]; exact ih.2 e herr⟩

/-- C6 (amended): in the fan-out stage, for any mix of per-role successes and
failures over roles with distinct ids, the executor's partial update stores
exactly one outputs entry per successful role, keyed by its role id and
holding its output; a failed role contributes no outputs entry; each failure
contributes exactly one errors entry (in fan-out order). The entry is
guaranteed to identify the failed role only when the failure is the agent's
own timeout rejection, whose message embeds the role id; a generic rejection
reason is surfaced verbatim and need not name the role (see the
counterexample). -/
theorem fanOut_partitions (outcomes : RoleDefinition → Except String AgentOutput)
    (state : WritingGraphState) (ra : RoleAnalysis)
    (hra : state.roleAnalysis = some ra)
    (hnodup : (ra.identifiedRoles.map RoleDefinition.id).Nodup) :
    (dynamicAgentExecutorNode outcomes state).agentOutputs =
      some (fanOutSuccessEntries outcomes ra.identifiedRoles) ∧
    (dynamicAgentExecutorNode outcomes state).errors =
      (if (fanOutFailureEntries outcomes ra.identifiedRoles).length > 0
       then some (fanOutFailureEntries outcomes ra.identifiedRoles) else none) ∧
    (∀ role ∈ ra.identifiedRoles, ∀ out, outcomes role = Except.ok out →
      objGet (fanOutSuccessEntries outcomes ra.identifiedRoles) role.id = some out) ∧
    (∀ role ∈ ra.identifiedRoles, ∀ e, outcomes role = Except.error e →
      objGet (fanOutSuccessEntries outcomes ra.identifiedRoles) role.id = none) ∧
    (∀ role ∈ ra.identifiedRoles, ∀ t : Int,
      outcomes role = Except.error (timeoutMessage role.id t) →
      ("Agent failed: " ++ timeoutMessage role.id t) ∈
          fanOutFailureEntries outcomes ra.identifiedRoles ∧
        ∃ pre post, ("Agent failed: " ++ timeoutMessage role.id t) =
          pre ++ (role.id ++ post)) := by
  have hnode := dynamicAgentExecutorNode_of_some outcomes state ra hra
  have hcollect := collect_over_roles outcomes ra.identifiedRoles hnodup
  refine ⟨?_, ?_, ?_, ?_, ?_⟩
  · rw [hnode]
    show some (collectResults ([], [])
      (ra.identifiedRoles.map (fun role => (role.id, outcomes role)))).1 = _
    rw [hcollect]
  · rw [hnode]
    show (if (collectResults ([], [])
        (ra.identifiedRoles.map (fun role => (role.id, outcomes role)))).2.length > 0
      then some (collectResults ([], [])
        (ra.identifiedRoles.map (fun role => (role.id, outcomes role)))).2
      else none) = _
    rw [hcollect]
  · intro role hrole out hok
    exact (fanOutSuccessEntries_get ra.identifiedRoles outcomes hnodup role hrole).1 out hok
  · intro role hrole e herr
    exact (fanOutSuccessEntries_get ra.identifiedRoles outcomes hnodup role hrole).2 e herr
  · intro role hrole t htime
    constructor
    · exact List.mem_filterMap.mpr ⟨role, hrole, by rw [htime]⟩
    · refine ⟨"Agent failed: " ++ "Agent ",
        " timed out after " ++ (toString t ++ "ms"), ?_⟩
      rw [String.append_assoc "Agent failed: " "Agent "]
      congr 1
      simp [timeoutMessage, String.append_assoc]

/-- A two-role analysis (alpha and beta). -/
def c6Analysis : RoleAnalysis :=
  { identifiedRoles := [sampleRole "alpha" 1, sampleRole "beta" 2]
    reasoning := "two complementary roles"
    confidence := 9/10 }

/-- A state holding the two-role analysis. -/
def c6State : WritingGraphState :=
  { sampleState with roleAnalysis := some c6Analysis }

/-- Witness for C6: a fan-out in which alpha times out and beta succeeds. -/
theorem fanOut_partitions_witness :
    (dynamicAgentExecutorNode mixedOutcomes c6State).agentOutputs =
      some (fanOutSuccessEntries mixedOutcomes c6Analysis.identifiedRoles) :=
  (fanOut_partitions mixedOutcomes c6State c6Analysis rfl (by decide)).1

/-- Fan-out outcomes where role alpha fails with a generic rejection reason
(as a network or validation failure produces) and every other role
succeeds. -/
def genericFailOutcomes (r : RoleDefinition) : Except String AgentOutput :=
  if r.id = "alpha" then .error "network error" else .ok (sampleOutput r.id)

/-- C6 fails as stated: when role alpha's execution is rejected with the
generic reason "network error" and beta succeeds, the single errors entry is
"Agent failed: network error" — it does not reference (contain) the failed
role's id "alpha" under any decomposition. -/
theorem fanOut_role_reference_counterexample :
    (dynamicAgentExecutorNode genericFailOutcomes c6State).errors =
      some ["Agent failed: network error"] ∧
    ¬∃ pre post : String,
      "Agent failed: network error" = pre ++ ("alpha" ++ post) := by
  constructor
  · decide
  · rintro ⟨pre, post, hEq⟩
    have hdata := congrArg String.data hEq
    rw [String.data_append, String.data_append] at hdata
    have hinf : ("alpha".data) <:+: ("Agent failed: network error".data) :=
      ⟨pre.data, post.data, by rw [List.append_assoc, ← hdata]⟩
    exact absurd hinf (by decide)

/-! ### Claim C7 -/

/-- The index components of an enumeration-from `n` are strictly increasing. -/
theorem pairwise_fst_lt_enumFrom :
    ∀ (l : List RoleDefinition) (n : Nat),
      List.Pairwise (fun a b : Nat × RoleDefinition => a.1 < b.1) (l.enumFrom n)
  | [], n => List.Pairwise.nil
  | x :: xs, n => by
    show List.Pairwise _ ((n, x) :: xs.enumFrom (n + 1))
    constructor
    · intro p hp
      have hle : n + 1 ≤ p.1 := le_fst_of_mem_enumFrom xs (n + 1) p hp
      omega
    · exact pairwise_fst_lt_enumFrom xs (n + 1)
where
  le_fst_of_mem_enumFrom :
      ∀ (l : List RoleDefinition) (n : Nat) (p : Nat × RoleDefinition),
        p ∈ l.enumFrom n → n ≤ p.1
    | [], n, p, h => absurd h (by simp)
    | x :: xs, n, p, h => by
      rcases List.mem_cons.mp h with hEq | hMem
      · rw [hEq]
      · have := le_fst_of_mem_enumFrom xs (n + 1) p hMem
        omega

/-- The sorted index-tagged roles still carry pairwise-distinct indices. -/
theorem sorted_roles_fst_ne (roles : List RoleDefinition) :
    List.Pairwise (fun a b : Nat × RoleDefinition => a.1 ≠ b.1)
      (roles.enum.insertionSort roleLexLe) := by
  have hlt : List.Pairwise (fun a b : Nat × RoleDefinition => a.1 < b.1) roles.enum :=
    pairwise_fst_lt_enumFrom roles 0
  have hne : List.Pairwise (fun a b : Nat × RoleDefinition => a.1 ≠ b.1) roles.enum :=
    hlt.imp (fun h => Nat.ne_of_lt h)
  exact ((List.perm_insertionSort roleLexLe roles.enum).pairwise_iff
    (fun h h2 => h h2.symm)).mpr hne

/-- C7: whenever the analyzer trims an over-long role list to the effective
maximum, the kept roles are exactly the `maxRoles` roles with the lowest
priority values of the original list, ties among equal priorities broken
stably by original position: the trim takes the prefix of the stable sort, its
length is exactly `maxRoles`, kept-plus-dropped is a permutation of the
index-tagged original list, and every kept role beats every dropped role
either on strictly smaller priority or, at equal priority, on strictly smaller
original index. -/
theorem trimRoles_keeps_lowest_priorities (roles : List RoleDefinition)
    (maxRoles : Nat) (h : maxRoles < roles.length) :
    (trimRoles roles maxRoles).length = maxRoles ∧
    trimRoles roles maxRoles =
      ((roles.enum.insertionSort roleLexLe).take maxRoles).map Prod.snd ∧
    ((roles.enum.insertionSort roleLexLe).take maxRoles ++
        (roles.enum.insertionSort roleLexLe).drop maxRoles).Perm roles.enum ∧
    ∀ a ∈ (roles.enum.insertionSort roleLexLe).take maxRoles,
      ∀ b ∈ (roles.enum.insertionSort roleLexLe).drop maxRoles,
        a.2.priority < b.2.priority ∨
          (a.2.priority = b.2.priority ∧ a.1 < b.1) := by
  refine ⟨?_, ?_, ?_, ?_⟩
  · rw [trimRoles_length]
    omega
  · show ((roles.enum.insertionSort roleLexLe).map Prod.snd).take maxRoles = _
    rw [List.map_take]
  · rw [List.take_append_drop]
    exact List.perm_insertionSort roleLexLe roles.enum
  · have hsorted : List.Pairwise roleLexLe (roles.enum.insertionSort roleLexLe) :=
      List.sorted_insertionSort roleLexLe roles.enum
    have hne := sorted_roles_fst_ne roles
    rw [← List.take_append_drop maxRoles (roles.enum.insertionSort roleLexLe)]
      at hsorted hne
    have hcross := (List.pairwise_append.mp hsorted).2.2
    have hcrossne := (List.pairwise_append.mp hne).2.2
    intro a ha b hb
    have hle := hcross a ha b hb
    have hneq := hcrossne a ha b hb
    rcases hle with hlt | ⟨hEq, hle2⟩
    · exact Or.inl hlt
    · exact Or.inr ⟨hEq, lt_of_le_of_ne hle2 hneq⟩

/-- Three roles with a priority tie between the first and the last. -/
def tieRoles : List RoleDefinition :=
  [sampleRole "a" 2, sampleRole "b" 1, sampleRole "c" 2]

/-- Witness for C7 at a concrete over-long role list with a tie. -/
theorem trimRoles_keeps_lowest_priorities_witness :
    (trimRoles tieRoles 2).length = 2 :=
  (trimRoles_keeps_lowest_priorities tieRoles 2 (by decide)).1
